import Mathlib

/-
  Verification development for the Azure OpenAI travel-assistant chatbot
  (src/main.py).  The session state, the two remote capabilities
  (moderation and chat completion), the transcript file and the
  interactive loop body are shallowly embedded as pure Lean functions.
  Remote calls, the wall clock and the file system are modelled as
  explicit oracle inputs to each step, so every function is total and
  executable; a Python exception raised by a remote call appears as an
  Except.error value of the corresponding oracle.
-/

/-- A chat message: role is one of system, user, assistant. -/
structure Message where
  role : String
  content : String
deriving Repr, DecidableEq

/-- The fixed system prompt set in AzureOpenAIChatbot.__init__ (src/main.py line 23). -/
def systemPromptText : String :=
  "You are a helpful travel assistant. Provide friendly, informative advice about travel destinations, planning, and tips."

/-- The constructed openai.AzureOpenAI client value: the three configuration
values it retains (src/main.py lines 15-19). -/
structure Client where
  azureEndpoint : String
  apiKey : String
  apiVersion : String
deriving Repr, DecidableEq

/-- Session state of AzureOpenAIChatbot: the client, the deployed model name
(stored verbatim from the constructor argument, src/main.py line 21; the
Python annotation says str but os.getenv can hand in None, hence Option),
the conversation history, the system prompt, and the logger output so far.
Log lines are modelled without the asctime part of the format string:
level tag and message only. -/
structure Chatbot where
  client : Client
  deployedModel : Option String
  conversationHistory : List Message
  systemPrompt : String
  log : List String
deriving Repr, DecidableEq

/-- A line written through self.logger.error. -/
def logError (m : String) : String := "ERROR - " ++ m

/-- A line written through self.logger.warning. -/
def logWarning (m : String) : String := "WARNING - " ++ m

/-- Result object of the remote moderation capability: response.results[0]
with its flagged boolean and its category-name-to-boolean mapping
(results.categories.__dict__.items() in src/main.py lines 47-52). -/
structure ModerationResult where
  flagged : Bool
  categories : List (String × Bool)
deriving Repr, DecidableEq

/-- The remote moderation capability as an oracle: given the input text it
either returns a result or fails with the text of the raised exception. -/
def ModerationOracle : Type := String → Except String ModerationResult

/-- The request handed to self.client.chat.completions.create
(src/main.py lines 77-85).  The Python float literals 0.7 and 0.95 are
modelled as the rational numbers those decimals denote. -/
structure CompletionRequest where
  model : Option String
  messages : List Message
  maxTokens : Nat
  temperature : Rat
  topP : Rat
  frequencyPenalty : Rat
  presencePenalty : Rat
deriving Repr, DecidableEq

/-- The remote completion capability as an oracle: given the request it
either returns response.choices[0].message.content or fails with the text
of the raised exception. -/
def CompletionOracle : Type := CompletionRequest → Except String String

/-- AzureOpenAIChatbot.moderate_content (src/main.py lines 40-61).
Returns the updated session (its log may grow), the lines printed to the
console, and the boolean result.  The except-branch swallows the failure:
it logs the error, prints the local notice and returns true. -/
def moderateContent (bot : Chatbot) (text : String) (moderate : ModerationOracle) :
    Chatbot × List String × Bool :=
  match moderate text with
  | .ok results =>
      if results.flagged then
        let flaggedCategories := (results.categories.filter (fun c => c.2)).map (fun c => c.1)
        ({ bot with log := bot.log ++
            [logWarning ("Content flagged for: " ++ String.intercalate ", " flaggedCategories)] },
         [], false)
      else
        (bot, [], true)
  | .error e =>
      ({ bot with log := bot.log ++ [logError ("Content moderation failed: " ++ e)] },
       ["Content moderation unavailable, proceeding without filtering..."], true)

/-- The message list built by AzureOpenAIChatbot.get_ai_response
(src/main.py lines 66-74): system prompt, then
self.conversation_history[-20:], then the current user message.
The Python slice l[-20:] is the last min(20, len l) entries, that is
l.drop (l.length - 20) under truncated Nat subtraction. -/
def buildMessages (bot : Chatbot) (userMessage : String) : List Message :=
  let messages := [⟨"system", bot.systemPrompt⟩]
  let recentHistory := bot.conversationHistory.drop (bot.conversationHistory.length - 20)
  let messages := messages ++ recentHistory
  messages ++ [⟨"user", userMessage⟩]

/-- The full completion request built by get_ai_response
(src/main.py lines 77-85). -/
def getAiRequest (bot : Chatbot) (userMessage : String) : CompletionRequest :=
  { model := bot.deployedModel
    messages := buildMessages bot userMessage
    maxTokens := 500
    temperature := 7 / 10
    topP := 95 / 100
    frequencyPenalty := 0
    presencePenalty := 0 }

/-- AzureOpenAIChatbot.get_ai_response (src/main.py lines 63-91).
Total: the except-branch converts a failed completion call into the
synthesized reply string and a logged error, so nothing propagates. -/
def getAiResponse (bot : Chatbot) (userMessage : String) (complete : CompletionOracle) :
    Chatbot × String :=
  let req := getAiRequest bot userMessage
  match complete req with
  | .ok content => (bot, content)
  | .error e =>
      ({ bot with log := bot.log ++ [logError ("Error getting AI response: " ++ e)] },
       "Sorry, I encountered an error: " ++ e)

/-- A run of n dash characters, as produced by the Python expression
of a string literal times n. -/
def dashes (n : Nat) : String := String.mk (List.replicate n '-')

/-- The transcript block appended per exchange by save_conversation
(src/main.py lines 105-109): a leading newline, the bracketed timestamp
line, the User line, the Assistant line, and a separator of 50 dashes. -/
def transcriptBlock (timestamp userMessage aiResponse : String) : String :=
  "\n[" ++ timestamp ++ "]\n" ++
  "User: " ++ userMessage ++ "\n" ++
  "Assistant: " ++ aiResponse ++ "\n" ++
  dashes 50 ++ "\n"

/-- AzureOpenAIChatbot.save_conversation (src/main.py lines 93-111).
The in-memory history append happens before the try-block, so it is kept
even when the file write fails.  The append to the transcript file is
modelled atomically: write is the outcome of the open-write-close of the
with-block, ok appending the whole block, error appending nothing and
logging.  timestamp is the datetime.now().isoformat() oracle value. -/
def saveConversation (bot : Chatbot) (transcript : String)
    (userMessage aiResponse timestamp : String) (write : Except String Unit) :
    Chatbot × String :=
  let bot := { bot with conversationHistory := bot.conversationHistory ++
      [⟨"user", userMessage⟩, ⟨"assistant", aiResponse⟩] }
  match write with
  | .ok _ => (bot, transcript ++ transcriptBlock timestamp userMessage aiResponse)
  | .error e =>
      ({ bot with log := bot.log ++
          [logError ("Error saving conversation to text file: " ++ e)] },
       transcript)

/-- A remote round trip performed during one loop iteration. -/
inductive RemoteCall where
  | moderation : String → RemoteCall
  | completion : CompletionRequest → RemoteCall
deriving Repr, DecidableEq

/-- The oracle inputs one loop iteration may consume: the two remote
capabilities, the transcript-write outcome, and the timestamp. -/
structure StepOracles where
  moderate : ModerationOracle
  complete : CompletionOracle
  write : Except String Unit
  timestamp : String

/-- Outcome of one iteration of the while-loop body of run_chatbot:
the new session state, the new transcript-file content, the console lines
printed, the remote calls performed in order, and whether the loop exits. -/
structure StepResult where
  bot : Chatbot
  transcript : String
  prints : List String
  calls : List RemoteCall
  exited : Bool
deriving Repr

/-- Python str.lower, modelled on the character list (Char.toLower agrees
with Python on the ASCII letters, which is all the loop compares against). -/
def pyLower (s : String) : String := ⟨s.data.map Char.toLower⟩

/-- Python str.strip with no argument: remove leading and trailing
whitespace, modelled on the character list. -/
def pyStrip (s : String) : String :=
  ⟨(((s.data.dropWhile Char.isWhitespace).reverse.dropWhile Char.isWhitespace).reverse)⟩

/-- One iteration of the while-loop body of AzureOpenAIChatbot.run_chatbot
(src/main.py lines 124-162), from the raw line returned by input() to the
bottom of the loop.  Python strip() is pyStrip, lower() is pyLower, and
the falsiness test on the stripped string is equality with the empty
string. -/
def runStep (bot : Chatbot) (transcript : String) (rawInput : String) (o : StepOracles) :
    StepResult :=
  let userInput := pyStrip rawInput
  if pyLower userInput = "exit" then
    ⟨bot, transcript, ["\nThanks for chatting! Have a great trip!"], [], true⟩
  else if pyLower userInput = "clear" then
    ⟨{ bot with conversationHistory := [] }, transcript,
     ["Conversation history cleared!"], [], false⟩
  else if userInput = "" then
    ⟨bot, transcript, ["Please enter a message!"], [], false⟩
  else
    let m := moderateContent bot userInput o.moderate
    let bot1 := m.1
    if !m.2.2 then
      ⟨bot1, transcript,
       m.2.1 ++ ["Sorry, your message contains inappropriate content. Please try again."],
       [.moderation userInput], false⟩
    else
      let g := getAiResponse bot1 userInput o.complete
      let s := saveConversation g.1 transcript userInput g.2 o.timestamp o.write
      ⟨s.1, s.2,
       m.2.1 ++ ["\nThinking...", "\nAssistant: " ++ g.2],
       [.moderation userInput, .completion (getAiRequest bot1 userInput)], false⟩

/-- The process environment values read by main (src/main.py lines 168-171). -/
structure Env where
  endpoint : Option String
  apiKey : Option String
  apiVersion : Option String
  deployedModel : Option String
deriving Repr, DecidableEq

/-- Modelled from the spec: the openai.AzureOpenAI client constructor is
third-party code absent from src/.  Per the spec (sections 6 and 7) the
endpoint URL, the API credential and the protocol/API version are required
values whose absence is fatal at startup, so the modelled constructor
fails exactly when one of the three values it receives is absent
(src/main.py lines 15-19 pass it exactly these three values; the deployed
model name is not among them). -/
def azureOpenAIInit (endpoint apiKey apiVersion : Option String) : Except String Client :=
  match endpoint, apiKey, apiVersion with
  | some e, some k, some v => .ok ⟨e, k, v⟩
  | _, _, _ => .error "missing required Azure OpenAI configuration"

/-- AzureOpenAIChatbot.__init__ (src/main.py lines 13-26): constructs the
client from endpoint, key and version, stores deployed_model verbatim,
and starts with empty history and the fixed system prompt. -/
def chatbotInit (endpoint apiKey : Option String) (deployedModel : Option String)
    (apiVersion : Option String) : Except String Chatbot :=
  match azureOpenAIInit endpoint apiKey apiVersion with
  | .error e => .error e
  | .ok client =>
      .ok { client := client
            deployedModel := deployedModel
            conversationHistory := []
            systemPrompt := systemPromptText
            log := [] }

/-- Outcome of main (src/main.py lines 165-184): either the session was
constructed and run_chatbot entered, or construction raised and the two
remediation lines were printed, the loop never entered. -/
inductive MainOutcome where
  | started : Chatbot → MainOutcome
  | initFailed : List String → MainOutcome
deriving Repr

/-- Whether the outcome constructed the session and entered the loop. -/
def MainOutcome.isStarted : MainOutcome → Bool
  | .started _ => true
  | .initFailed _ => false

/-- The startup path of main (src/main.py lines 165-184). -/
def mainStartup (env : Env) : MainOutcome :=
  match chatbotInit env.endpoint env.apiKey env.deployedModel env.apiVersion with
  | .ok bot => .started bot
  | .error e =>
      .initFailed ["Failed to initialize chatbot: " ++ e,
                   "Please check your Azure OpenAI credentials and try again."]

/-- History well-formedness: an alternating sequence of user and assistant
entries beginning with a user entry (hence of even length). -/
def historyWellFormed : List Message → Bool
  | [] => true
  | [_] => false
  | u :: r :: rest => u.role == "user" && r.role == "assistant" && historyWellFormed rest

/-- A concrete client value used to exercise the theorems. -/
def sampleClient : Client :=
  ⟨"https://example.openai.azure.com", "secret-key", "2024-02-01"⟩

/-- A concrete freshly initialized session. -/
def sampleBot : Chatbot :=
  ⟨sampleClient, some "gpt-4o", [], systemPromptText, []⟩

/-- A concrete session with one completed exchange in history. -/
def sampleBotChat : Chatbot :=
  ⟨sampleClient, some "gpt-4o",
   [⟨"user", "hi"⟩, ⟨"assistant", "hello"⟩], systemPromptText, []⟩

/-- A moderation oracle that reports every input as not flagged. -/
def modAllow : ModerationOracle := fun _ => .ok ⟨false, []⟩

/-- A moderation oracle that flags every input under one category. -/
def modFlag : ModerationOracle :=
  fun _ => .ok ⟨true, [("hate", true), ("violence", false)]⟩

/-- A moderation oracle whose remote call always fails. -/
def modFail : ModerationOracle := fun _ => .error "timeout"

/-- A completion oracle that always answers. -/
def compOk : CompletionOracle := fun _ => .ok "Hi there!"

/-- A completion oracle whose remote call always fails. -/
def compFail : CompletionOracle := fun _ => .error "boom"

/-- Step oracles for a fully successful iteration. -/
def oraclesOk : StepOracles := ⟨modAllow, compOk, .ok (), "2024-01-01T00:00:00"⟩

/-- Step oracles whose moderation call fails. -/
def oraclesModFail : StepOracles := ⟨modFail, compOk, .ok (), "2024-01-01T00:00:00"⟩

/-- Step oracles whose moderation call flags the input. -/
def oraclesReject : StepOracles := ⟨modFlag, compOk, .ok (), "2024-01-01T00:00:00"⟩

/-- An environment missing only the deployed model identifier. -/
def envMissingModel : Env :=
  ⟨some "https://example.openai.azure.com", some "secret-key", some "2024-02-01", none⟩

/-- An environment missing only the endpoint. -/
def envMissingEndpoint : Env :=
  ⟨none, some "secret-key", some "2024-02-01", some "gpt-4o"⟩

/-- moderate_content touches only the log: history, prompt and
configuration are unchanged. -/
theorem moderateContent_state (bot : Chatbot) (text : String) (m : ModerationOracle) :
    (moderateContent bot text m).1.conversationHistory = bot.conversationHistory ∧
    (moderateContent bot text m).1.systemPrompt = bot.systemPrompt ∧
    (moderateContent bot text m).1.client = bot.client ∧
    (moderateContent bot text m).1.deployedModel = bot.deployedModel := by
  unfold moderateContent
  cases hm : m text with
  | error e => simp
  | ok r => cases hf : r.flagged <;> simp [hf]

/-- The completion request does not depend on the log, so building it after
a moderation call gives the same request. -/
theorem getAiRequest_moderate (bot : Chatbot) (text u : String) (m : ModerationOracle) :
    getAiRequest (moderateContent bot text m).1 u = getAiRequest bot u := by
  have h := moderateContent_state bot text m
  simp [getAiRequest, buildMessages, h.1, h.2.1, h.2.2.2]

/-- get_ai_response touches only the log: history, prompt and
configuration are unchanged on both the success and the error path. -/
theorem getAiResponse_state (bot : Chatbot) (u : String) (c : CompletionOracle) :
    (getAiResponse bot u c).1.conversationHistory = bot.conversationHistory ∧
    (getAiResponse bot u c).1.systemPrompt = bot.systemPrompt ∧
    (getAiResponse bot u c).1.client = bot.client ∧
    (getAiResponse bot u c).1.deployedModel = bot.deployedModel := by
  unfold getAiResponse
  cases hc : c (getAiRequest bot u) <;> simp [hc]

/-- save_conversation appends the user and assistant pair to history
whether or not the file write succeeds. -/
theorem saveConversation_history (bot : Chatbot) (t u r ts : String) (w : Except String Unit) :
    (saveConversation bot t u r ts w).1.conversationHistory =
      bot.conversationHistory ++ [⟨"user", u⟩, ⟨"assistant", r⟩] := by
  unfold saveConversation
  cases w <;> rfl

/-- Appending one user and assistant pair preserves history
well-formedness. -/
theorem historyWellFormed_append :
    ∀ (h : List Message) (u r : String), historyWellFormed h = true →
      historyWellFormed (h ++ [⟨"user", u⟩, ⟨"assistant", r⟩]) = true
  | [], u, r, _ => by simp [historyWellFormed]
  | [x], u, r, hh => by simp [historyWellFormed] at hh
  | x :: y :: rest, u, r, hh => by
      simp only [historyWellFormed, Bool.and_eq_true, beq_iff_eq] at hh
      have ih := historyWellFormed_append rest u r hh.2
      simp only [List.cons_append, historyWellFormed, Bool.and_eq_true, beq_iff_eq]
      exact ⟨hh.1, ih⟩

/-- A well-formed history has even length. -/
theorem historyWellFormed_even :
    ∀ (h : List Message), historyWellFormed h = true → h.length % 2 = 0
  | [], _ => rfl
  | [_], hh => by simp [historyWellFormed] at hh
  | _ :: _ :: rest, hh => by
      simp only [historyWellFormed, Bool.and_eq_true] at hh
      have ih := historyWellFormed_even rest hh.2
      simp only [List.length_cons]
      omega

/-- A well-formed history begins with a user entry when nonempty. -/
theorem historyWellFormed_head (h : List Message) (m : Message)
    (hw : historyWellFormed h = true) (hm : h.head? = some m) : m.role = "user" := by
  match h with
  | [] => simp at hm
  | [x] => simp [historyWellFormed] at hw
  | x :: y :: rest =>
      simp only [historyWellFormed, Bool.and_eq_true, beq_iff_eq] at hw
      simp only [List.head?_cons, Option.some.injEq] at hm
      subst hm
      exact hw.1.1

/-- Loop body, exit branch. -/
theorem runStep_exit_eq (bot : Chatbot) (transcript raw : String) (o : StepOracles)
    (hx : pyLower (pyStrip raw) = "exit") :
    runStep bot transcript raw o =
      ⟨bot, transcript, ["\nThanks for chatting! Have a great trip!"], [], true⟩ := by
  unfold runStep
  simp only [hx]
  exact if_pos trivial

/-- Loop body, clear branch. -/
theorem runStep_clear_eq (bot : Chatbot) (transcript raw : String) (o : StepOracles)
    (hc : pyLower (pyStrip raw) = "clear") :
    runStep bot transcript raw o =
      ⟨{ bot with conversationHistory := [] }, transcript,
       ["Conversation history cleared!"], [], false⟩ := by
  unfold runStep
  simp only [hc]
  rw [if_neg (show ("clear" = "exit") → False from by decide)]
  exact if_pos trivial

/-- Loop body, empty input branch. -/
theorem runStep_empty_eq (bot : Chatbot) (transcript raw : String) (o : StepOracles)
    (hx : pyLower (pyStrip raw) ≠ "exit") (hc : pyLower (pyStrip raw) ≠ "clear")
    (hn : pyStrip raw = "") :
    runStep bot transcript raw o =
      ⟨bot, transcript, ["Please enter a message!"], [], false⟩ := by
  unfold runStep
  rw [if_neg hx, if_neg hc, if_pos hn]

/-- Loop body, moderation rejection branch. -/
theorem runStep_reject_eq (bot : Chatbot) (transcript raw : String) (o : StepOracles)
    (hx : pyLower (pyStrip raw) ≠ "exit") (hc : pyLower (pyStrip raw) ≠ "clear")
    (hn : pyStrip raw ≠ "")
    (hm : (moderateContent bot (pyStrip raw) o.moderate).2.2 = false) :
    runStep bot transcript raw o =
      ⟨(moderateContent bot (pyStrip raw) o.moderate).1, transcript,
       (moderateContent bot (pyStrip raw) o.moderate).2.1 ++
         ["Sorry, your message contains inappropriate content. Please try again."],
       [.moderation (pyStrip raw)], false⟩ := by
  unfold runStep
  rw [if_neg hx, if_neg hc, if_neg hn]
  simp only [hm]
  rfl

/-- Loop body, moderated chat branch: completion then persistence. -/
theorem runStep_chat_eq (bot : Chatbot) (transcript raw : String) (o : StepOracles)
    (hx : pyLower (pyStrip raw) ≠ "exit") (hc : pyLower (pyStrip raw) ≠ "clear")
    (hn : pyStrip raw ≠ "")
    (hm : (moderateContent bot (pyStrip raw) o.moderate).2.2 = true) :
    runStep bot transcript raw o =
      (let u := pyStrip raw
       let bot1 := (moderateContent bot u o.moderate).1
       let g := getAiResponse bot1 u o.complete
       let s := saveConversation g.1 transcript u g.2 o.timestamp o.write
       ⟨s.1, s.2,
        (moderateContent bot u o.moderate).2.1 ++ ["\nThinking...", "\nAssistant: " ++ g.2],
        [.moderation u, .completion (getAiRequest bot1 u)], false⟩) := by
  unfold runStep
  rw [if_neg hx, if_neg hc, if_neg hn]
  simp only [hm]
  rfl

/-- Claim C2: if the remote completion call fails, get_ai_response does not
raise (it is a total function here and in the source the except-branch
catches everything): it returns the literal prefix followed by the error
detail and logs the error. -/
theorem respond_error_reply (bot : Chatbot) (u e : String) (c : CompletionOracle)
    (h : c (getAiRequest bot u) = .error e) :
    (getAiResponse bot u c).2 = "Sorry, I encountered an error: " ++ e ∧
    (∃ rest, (getAiResponse bot u c).2 = "Sorry, I encountered an error:" ++ rest) ∧
    (getAiResponse bot u c).1.log =
      bot.log ++ [logError ("Error getting AI response: " ++ e)] := by
  unfold getAiResponse
  simp only [h]
  refine ⟨trivial, ⟨" " ++ e, ?_⟩, trivial⟩
  have h2 : ("Sorry, I encountered an error:" : String) ++ " " =
      "Sorry, I encountered an error: " := by decide
  rw [← h2, String.append_assoc]

theorem respond_error_reply_witness :
    compFail (getAiRequest sampleBot "Hello") = Except.error "boom" ∧
    ((getAiResponse sampleBot "Hello" compFail).2 = "Sorry, I encountered an error: " ++ "boom" ∧
     (∃ rest, (getAiResponse sampleBot "Hello" compFail).2 =
        "Sorry, I encountered an error:" ++ rest) ∧
     (getAiResponse sampleBot "Hello" compFail).1.log =
       sampleBot.log ++ [logError ("Error getting AI response: " ++ "boom")]) :=
  ⟨rfl, respond_error_reply sampleBot "Hello" "boom" compFail rfl⟩

/-- Claim C3: a failing moderation call is swallowed fail-open. -/
theorem moderation_fail_open (bot : Chatbot) (text e : String) (m : ModerationOracle)
    (hm : m text = .error e) :
    (moderateContent bot text m).2.2 = true ∧
    (moderateContent bot text m).1.log =
      bot.log ++ [logError ("Content moderation failed: " ++ e)] ∧
    (moderateContent bot text m).2.1 =
      ["Content moderation unavailable, proceeding without filtering..."] ∧
    ∀ (transcript raw : String) (o : StepOracles),
      pyLower (pyStrip raw) ≠ "exit" → pyLower (pyStrip raw) ≠ "clear" → pyStrip raw ≠ "" →
      o.moderate (pyStrip raw) = Except.error e →
      ∃ req, (runStep bot transcript raw o).calls =
        [.moderation (pyStrip raw), .completion req] := by
  refine ⟨?_, ?_, ?_, ?_⟩
  · unfold moderateContent; simp only [hm]
  · unfold moderateContent; simp only [hm]
  · unfold moderateContent; simp only [hm]
  · intro transcript raw o hx hc hn hmo
    have hall : (moderateContent bot (pyStrip raw) o.moderate).2.2 = true := by
      unfold moderateContent; simp only [hmo]
    rw [runStep_chat_eq bot transcript raw o hx hc hn hall]
    exact ⟨_, rfl⟩

theorem moderation_fail_open_witness :
    modFail "Hello" = Except.error "timeout" ∧
    ((moderateContent sampleBot "Hello" modFail).2.2 = true ∧
     (moderateContent sampleBot "Hello" modFail).1.log =
       sampleBot.log ++ [logError ("Content moderation failed: " ++ "timeout")] ∧
     (moderateContent sampleBot "Hello" modFail).2.1 =
       ["Content moderation unavailable, proceeding without filtering..."] ∧
     ∀ (transcript raw : String) (o : StepOracles),
       pyLower (pyStrip raw) ≠ "exit" → pyLower (pyStrip raw) ≠ "clear" → pyStrip raw ≠ "" →
       o.moderate (pyStrip raw) = Except.error "timeout" →
       ∃ req, (runStep sampleBot transcript raw o).calls =
         [.moderation (pyStrip raw), .completion req]) :=
  ⟨rfl, moderation_fail_open sampleBot "Hello" "timeout" modFail rfl⟩

/-- Claim C5: a successful persist call appends exactly the user and
assistant pair to history and exactly one block to the transcript: a
leading newline, the bracketed timestamp line, the User line, the
Assistant line, and a separator of 50 dashes. -/
theorem persist_success_appends (bot : Chatbot) (transcript u r ts : String) :
    (saveConversation bot transcript u r ts (.ok ())).1.conversationHistory =
      bot.conversationHistory ++ [⟨"user", u⟩, ⟨"assistant", r⟩] ∧
    (saveConversation bot transcript u r ts (.ok ())).2 =
      transcript ++
        ("\n[" ++ ts ++ "]\n" ++ "User: " ++ u ++ "\n" ++ "Assistant: " ++ r ++ "\n" ++
         "--------------------------------------------------\n") := by
  constructor
  · exact saveConversation_history bot transcript u r ts (.ok ())
  · show transcript ++ transcriptBlock ts u r = _
    unfold transcriptBlock
    have hd : dashes 50 ++ "\n" = "--------------------------------------------------\n" := by
      decide
    congr 1
    rw [String.append_assoc]
    rw [hd]

/-- Claim C6: a failing transcript write is logged and swallowed; the
history append is not rolled back and the transcript is unchanged. -/
theorem persist_write_failure_swallowed (bot : Chatbot) (transcript u r ts e : String) :
    (saveConversation bot transcript u r ts (.error e)).1.conversationHistory =
      bot.conversationHistory ++ [⟨"user", u⟩, ⟨"assistant", r⟩] ∧
    (saveConversation bot transcript u r ts (.error e)).2 = transcript ∧
    (saveConversation bot transcript u r ts (.error e)).1.log =
      bot.log ++ [logError ("Error saving conversation to text file: " ++ e)] :=
  ⟨saveConversation_history bot transcript u r ts (.error e), rfl, rfl⟩

/-- Claim C7: the clear command empties history, performs no remote call,
leaves the transcript unchanged, and the loop continues. -/
theorem clear_resets_history_only (bot : Chatbot) (transcript raw : String) (o : StepOracles)
    (hc : pyLower (pyStrip raw) = "clear") :
    (runStep bot transcript raw o).bot.conversationHistory = [] ∧
    (runStep bot transcript raw o).calls = [] ∧
    (runStep bot transcript raw o).transcript = transcript ∧
    (runStep bot transcript raw o).exited = false ∧
    (runStep bot transcript raw o).prints = ["Conversation history cleared!"] := by
  rw [runStep_clear_eq bot transcript raw o hc]
  exact ⟨rfl, rfl, rfl, rfl, rfl⟩

theorem clear_resets_history_only_witness :
    pyLower (pyStrip "  CLEAR ") = "clear" ∧
    ((runStep sampleBotChat "prior transcript" "  CLEAR " oraclesOk).bot.conversationHistory = [] ∧
     (runStep sampleBotChat "prior transcript" "  CLEAR " oraclesOk).calls = [] ∧
     (runStep sampleBotChat "prior transcript" "  CLEAR " oraclesOk).transcript =
       "prior transcript" ∧
     (runStep sampleBotChat "prior transcript" "  CLEAR " oraclesOk).exited = false ∧
     (runStep sampleBotChat "prior transcript" "  CLEAR " oraclesOk).prints =
       ["Conversation history cleared!"]) :=
  ⟨by decide, clear_resets_history_only sampleBotChat "prior transcript" "  CLEAR " oraclesOk
     (by decide)⟩

/-- Claim C8: when moderation rejects the input, no completion call and no
persistence happen: the only remote call is the moderation call, history
and transcript are unchanged, the rejection notice is printed, and the
loop continues. -/
theorem rejected_input_skips_respond_persist (bot : Chatbot) (transcript raw : String)
    (o : StepOracles)
    (hx : pyLower (pyStrip raw) ≠ "exit") (hc : pyLower (pyStrip raw) ≠ "clear")
    (hn : pyStrip raw ≠ "")
    (hm : (moderateContent bot (pyStrip raw) o.moderate).2.2 = false) :
    (runStep bot transcript raw o).calls = [RemoteCall.moderation (pyStrip raw)] ∧
    (runStep bot transcript raw o).bot.conversationHistory = bot.conversationHistory ∧
    (runStep bot transcript raw o).transcript = transcript ∧
    (runStep bot transcript raw o).exited = false ∧
    (runStep bot transcript raw o).prints =
      (moderateContent bot (pyStrip raw) o.moderate).2.1 ++
        ["Sorry, your message contains inappropriate content. Please try again."] := by
  rw [runStep_reject_eq bot transcript raw o hx hc hn hm]
  exact ⟨rfl, (moderateContent_state bot (pyStrip raw) o.moderate).1, rfl, rfl, rfl⟩

theorem rejected_input_skips_respond_persist_witness :
    (pyLower (pyStrip "bad message") ≠ "exit" ∧ pyLower (pyStrip "bad message") ≠ "clear" ∧
     pyStrip "bad message" ≠ "" ∧
     (moderateContent sampleBotChat (pyStrip "bad message") oraclesReject.moderate).2.2 = false) ∧
    ((runStep sampleBotChat "t" "bad message" oraclesReject).calls =
       [RemoteCall.moderation (pyStrip "bad message")] ∧
     (runStep sampleBotChat "t" "bad message" oraclesReject).bot.conversationHistory =
       sampleBotChat.conversationHistory ∧
     (runStep sampleBotChat "t" "bad message" oraclesReject).transcript = "t" ∧
     (runStep sampleBotChat "t" "bad message" oraclesReject).exited = false ∧
     (runStep sampleBotChat "t" "bad message" oraclesReject).prints =
       (moderateContent sampleBotChat (pyStrip "bad message") oraclesReject.moderate).2.1 ++
         ["Sorry, your message contains inappropriate content. Please try again."]) :=
  ⟨⟨by decide, by decide, by decide, by decide⟩,
   rejected_input_skips_respond_persist sampleBotChat "t" "bad message" oraclesReject
     (by decide) (by decide) (by decide) (by decide)⟩

/-- Claim C1: the message list passed to the completion capability is the
fixed system-prompt message, then the last 20 entries of history, then the
current user message; it never exceeds 22 entries and its first entry is
the system message.  The final conjunct places the property inside the
loop: on the chat path the recorded completion request is built from the
pre-step history, and the exchange is appended to history only afterwards,
so the current user message is not yet in history when the request is
built. -/
theorem completion_request_shape (bot : Chatbot) (u : String)
    (hsp : bot.systemPrompt = systemPromptText) :
    (getAiRequest bot u).messages =
      ⟨"system", systemPromptText⟩ ::
        (bot.conversationHistory.drop (bot.conversationHistory.length - 20) ++
         [⟨"user", u⟩]) ∧
    (getAiRequest bot u).messages.length ≤ 22 ∧
    (getAiRequest bot u).messages.head? = some ⟨"system", systemPromptText⟩ ∧
    ∀ (transcript raw : String) (o : StepOracles),
      pyLower (pyStrip raw) ≠ "exit" → pyLower (pyStrip raw) ≠ "clear" → pyStrip raw ≠ "" →
      (moderateContent bot (pyStrip raw) o.moderate).2.2 = true →
      (runStep bot transcript raw o).calls =
        [.moderation (pyStrip raw), .completion (getAiRequest bot (pyStrip raw))] ∧
      (runStep bot transcript raw o).bot.conversationHistory =
        bot.conversationHistory ++
          [⟨"user", pyStrip raw⟩,
           ⟨"assistant",
            (getAiResponse (moderateContent bot (pyStrip raw) o.moderate).1
              (pyStrip raw) o.complete).2⟩] := by
  refine ⟨?_, ?_, ?_, ?_⟩
  · simp [getAiRequest, buildMessages, hsp]
  · simp only [getAiRequest, buildMessages]
    simp [List.length_append, List.length_drop]
    omega
  · simp [getAiRequest, buildMessages, hsp]
  · intro transcript raw o hx hc hn hm
    rw [runStep_chat_eq bot transcript raw o hx hc hn hm]
    constructor
    · show [RemoteCall.moderation (pyStrip raw),
        RemoteCall.completion
          (getAiRequest (moderateContent bot (pyStrip raw) o.moderate).1 (pyStrip raw))] = _
      rw [getAiRequest_moderate]
    · show (saveConversation
          (getAiResponse (moderateContent bot (pyStrip raw) o.moderate).1
            (pyStrip raw) o.complete).1
          transcript (pyStrip raw)
          (getAiResponse (moderateContent bot (pyStrip raw) o.moderate).1
            (pyStrip raw) o.complete).2
          o.timestamp o.write).1.conversationHistory = _
      rw [saveConversation_history,
        (getAiResponse_state (moderateContent bot (pyStrip raw) o.moderate).1
          (pyStrip raw) o.complete).1,
        (moderateContent_state bot (pyStrip raw) o.moderate).1]

theorem completion_request_shape_witness :
    sampleBotChat.systemPrompt = systemPromptText ∧
    ((getAiRequest sampleBotChat "Hello").messages =
      ⟨"system", systemPromptText⟩ ::
        (sampleBotChat.conversationHistory.drop
           (sampleBotChat.conversationHistory.length - 20) ++
         [⟨"user", "Hello"⟩]) ∧
     (getAiRequest sampleBotChat "Hello").messages.length ≤ 22 ∧
     (getAiRequest sampleBotChat "Hello").messages.head? =
       some ⟨"system", systemPromptText⟩ ∧
     ∀ (transcript raw : String) (o : StepOracles),
       pyLower (pyStrip raw) ≠ "exit" → pyLower (pyStrip raw) ≠ "clear" → pyStrip raw ≠ "" →
       (moderateContent sampleBotChat (pyStrip raw) o.moderate).2.2 = true →
       (runStep sampleBotChat transcript raw o).calls =
         [.moderation (pyStrip raw), .completion (getAiRequest sampleBotChat (pyStrip raw))] ∧
       (runStep sampleBotChat transcript raw o).bot.conversationHistory =
         sampleBotChat.conversationHistory ++
           [⟨"user", pyStrip raw⟩,
            ⟨"assistant",
             (getAiResponse (moderateContent sampleBotChat (pyStrip raw) o.moderate).1
               (pyStrip raw) o.complete).2⟩]) :=
  ⟨rfl, completion_request_shape sampleBotChat "Hello" rfl⟩

/-- Claim C9: from the empty initial history, every loop iteration
preserves that history is an alternating user and assistant sequence
beginning with a user entry, and so always has even length. -/
theorem history_alternation_invariant :
    historyWellFormed ([] : List Message) = true ∧
    (∀ (ep k dm v : Option String) (bot0 : Chatbot),
      chatbotInit ep k dm v = Except.ok bot0 → bot0.conversationHistory = []) ∧
    ∀ (bot : Chatbot) (transcript raw : String) (o : StepOracles),
      historyWellFormed bot.conversationHistory = true →
      historyWellFormed (runStep bot transcript raw o).bot.conversationHistory = true ∧
      (runStep bot transcript raw o).bot.conversationHistory.length % 2 = 0 ∧
      ∀ m, (runStep bot transcript raw o).bot.conversationHistory.head? = some m →
        m.role = "user" := by
  refine ⟨rfl, ?_, ?_⟩
  · intro ep k dm v bot0 h
    unfold chatbotInit at h
    cases hai : azureOpenAIInit ep k v with
    | error e => rw [hai] at h; cases h
    | ok cl => rw [hai] at h; cases h; rfl
  · intro bot transcript raw o hw
    by_cases hx : pyLower (pyStrip raw) = "exit"
    · rw [runStep_exit_eq bot transcript raw o hx]
      exact ⟨hw, historyWellFormed_even _ hw, fun m hm => historyWellFormed_head _ m hw hm⟩
    · by_cases hc : pyLower (pyStrip raw) = "clear"
      · rw [runStep_clear_eq bot transcript raw o hc]
        refine ⟨rfl, rfl, ?_⟩
        intro m hm
        simp at hm
      · by_cases hn : pyStrip raw = ""
        · rw [runStep_empty_eq bot transcript raw o hx hc hn]
          exact ⟨hw, historyWellFormed_even _ hw, fun m hm => historyWellFormed_head _ m hw hm⟩
        · by_cases hm2 : (moderateContent bot (pyStrip raw) o.moderate).2.2 = true
          · rw [runStep_chat_eq bot transcript raw o hx hc hn hm2]
            have hrw : (saveConversation
                (getAiResponse (moderateContent bot (pyStrip raw) o.moderate).1
                  (pyStrip raw) o.complete).1
                transcript (pyStrip raw)
                (getAiResponse (moderateContent bot (pyStrip raw) o.moderate).1
                  (pyStrip raw) o.complete).2
                o.timestamp o.write).1.conversationHistory =
                bot.conversationHistory ++
                  [⟨"user", pyStrip raw⟩,
                   ⟨"assistant",
                    (getAiResponse (moderateContent bot (pyStrip raw) o.moderate).1
                      (pyStrip raw) o.complete).2⟩] := by
              rw [saveConversation_history,
                (getAiResponse_state (moderateContent bot (pyStrip raw) o.moderate).1
                  (pyStrip raw) o.complete).1,
                (moderateContent_state bot (pyStrip raw) o.moderate).1]
            refine ⟨?_, ?_, ?_⟩
            · show historyWellFormed (saveConversation
                  (getAiResponse (moderateContent bot (pyStrip raw) o.moderate).1
                    (pyStrip raw) o.complete).1
                  transcript (pyStrip raw)
                  (getAiResponse (moderateContent bot (pyStrip raw) o.moderate).1
                    (pyStrip raw) o.complete).2
                  o.timestamp o.write).1.conversationHistory = true
              rw [hrw]
              exact historyWellFormed_append _ _ _ hw
            · show (saveConversation
                  (getAiResponse (moderateContent bot (pyStrip raw) o.moderate).1
                    (pyStrip raw) o.complete).1
                  transcript (pyStrip raw)
                  (getAiResponse (moderateContent bot (pyStrip raw) o.moderate).1
                    (pyStrip raw) o.complete).2
                  o.timestamp o.write).1.conversationHistory.length % 2 = 0
              rw [hrw]
              have he := historyWellFormed_even _ hw
              simp [List.length_append]
              omega
            · intro m hm
              have hm9 : (saveConversation
                  (getAiResponse (moderateContent bot (pyStrip raw) o.moderate).1
                    (pyStrip raw) o.complete).1
                  transcript (pyStrip raw)
                  (getAiResponse (moderateContent bot (pyStrip raw) o.moderate).1
                    (pyStrip raw) o.complete).2
                  o.timestamp o.write).1.conversationHistory.head? = some m := hm
              rw [hrw] at hm9
              clear hm
              have hm := hm9
              cases hhist : bot.conversationHistory with
              | nil =>
                  rw [hhist] at hm
                  simp at hm
                  rw [← hm]
              | cons a rest =>
                  rw [hhist] at hm
                  simp at hm
                  have hw2 : historyWellFormed (a :: rest) = true := by rw [← hhist]; exact hw
                  exact historyWellFormed_head (a :: rest) m hw2 (by simp [hm])
          · have hm3 : (moderateContent bot (pyStrip raw) o.moderate).2.2 = false := by
              simpa using hm2
            rw [runStep_reject_eq bot transcript raw o hx hc hn hm3]
            have hh : (moderateContent bot (pyStrip raw) o.moderate).1.conversationHistory =
                bot.conversationHistory :=
              (moderateContent_state bot (pyStrip raw) o.moderate).1
            refine ⟨?_, ?_, ?_⟩
            · show historyWellFormed
                (moderateContent bot (pyStrip raw) o.moderate).1.conversationHistory = true
              rw [hh]; exact hw
            · show (moderateContent bot (pyStrip raw) o.moderate).1.conversationHistory.length
                % 2 = 0
              rw [hh]; exact historyWellFormed_even _ hw
            · intro m hm
              have hm9 : (moderateContent bot
                  (pyStrip raw) o.moderate).1.conversationHistory.head? = some m := hm
              rw [hh] at hm9
              exact historyWellFormed_head _ m hw hm9

theorem history_alternation_invariant_witness :
    historyWellFormed sampleBotChat.conversationHistory = true ∧
    (historyWellFormed
       (runStep sampleBotChat "t" "Hello" oraclesOk).bot.conversationHistory = true ∧
     (runStep sampleBotChat "t" "Hello" oraclesOk).bot.conversationHistory.length % 2 = 0 ∧
     ∀ m, (runStep sampleBotChat "t" "Hello" oraclesOk).bot.conversationHistory.head? =
       some m → m.role = "user") :=
  ⟨by decide,
   history_alternation_invariant.2.2 sampleBotChat "t" "Hello" oraclesOk (by decide)⟩

/-- Claim C10: get_ai_response never mutates history, system prompt or
configuration (only its log may grow), on both the success and the error
path; across a whole loop iteration history changes only by the clear
reset or by the save_conversation pair append. -/
theorem respond_state_frame (bot : Chatbot) (u : String) (c : CompletionOracle) :
    ((getAiResponse bot u c).1.conversationHistory = bot.conversationHistory ∧
     (getAiResponse bot u c).1.systemPrompt = bot.systemPrompt ∧
     (getAiResponse bot u c).1.client = bot.client ∧
     (getAiResponse bot u c).1.deployedModel = bot.deployedModel) ∧
    ∀ (transcript raw : String) (o : StepOracles),
      (runStep bot transcript raw o).bot.conversationHistory = bot.conversationHistory ∨
      (runStep bot transcript raw o).bot.conversationHistory = [] ∨
      (runStep bot transcript raw o).bot.conversationHistory =
        bot.conversationHistory ++
          [⟨"user", pyStrip raw⟩,
           ⟨"assistant",
            (getAiResponse (moderateContent bot (pyStrip raw) o.moderate).1
              (pyStrip raw) o.complete).2⟩] := by
  refine ⟨getAiResponse_state bot u c, ?_⟩
  intro transcript raw o
  by_cases hx : pyLower (pyStrip raw) = "exit"
  · rw [runStep_exit_eq bot transcript raw o hx]; exact Or.inl rfl
  · by_cases hc : pyLower (pyStrip raw) = "clear"
    · rw [runStep_clear_eq bot transcript raw o hc]; exact Or.inr (Or.inl rfl)
    · by_cases hn : pyStrip raw = ""
      · rw [runStep_empty_eq bot transcript raw o hx hc hn]; exact Or.inl rfl
      · by_cases hm2 : (moderateContent bot (pyStrip raw) o.moderate).2.2 = true
        · rw [runStep_chat_eq bot transcript raw o hx hc hn hm2]
          refine Or.inr (Or.inr ?_)
          show (saveConversation
              (getAiResponse (moderateContent bot (pyStrip raw) o.moderate).1
                (pyStrip raw) o.complete).1
              transcript (pyStrip raw)
              (getAiResponse (moderateContent bot (pyStrip raw) o.moderate).1
                (pyStrip raw) o.complete).2
              o.timestamp o.write).1.conversationHistory = _
          rw [saveConversation_history,
            (getAiResponse_state (moderateContent bot (pyStrip raw) o.moderate).1
              (pyStrip raw) o.complete).1,
            (moderateContent_state bot (pyStrip raw) o.moderate).1]
        · have hm3 : (moderateContent bot (pyStrip raw) o.moderate).2.2 = false := by
            simpa using hm2
          rw [runStep_reject_eq bot transcript raw o hx hc hn hm3]
          exact Or.inl (moderateContent_state bot (pyStrip raw) o.moderate).1

/-- Claim C4 counterexample: with endpoint, credential and API version
present but the deployed model identifier absent from the environment,
the session object is constructed and the interactive loop is entered, so
absence of the model identifier is not fatal at startup (the model name is
only stored, never validated, src/main.py line 21). -/
theorem startup_missing_model_not_fatal :
    envMissingModel.deployedModel = none ∧
    (mainStartup envMissingModel).isStarted = true :=
  ⟨rfl, rfl⟩

/-- Claim C4 as amended: absence of any of the three values handed to the
client constructor (endpoint, credential, API version) is fatal: the
session is never constructed, the loop is never entered, and the two
remediation lines are printed. -/
theorem startup_missing_client_value_fatal (env : Env)
    (h : env.endpoint = none ∨ env.apiKey = none ∨ env.apiVersion = none) :
    mainStartup env =
      .initFailed
        ["Failed to initialize chatbot: missing required Azure OpenAI configuration",
         "Please check your Azure OpenAI credentials and try again."] ∧
    (mainStartup env).isStarted = false := by
  obtain ⟨ep, key, ver, dm⟩ := env
  simp only at h
  cases ep <;> cases key <;> cases ver <;>
    simp_all [mainStartup, chatbotInit, azureOpenAIInit, MainOutcome.isStarted]

theorem startup_missing_client_value_fatal_witness :
    (envMissingEndpoint.endpoint = none ∨ envMissingEndpoint.apiKey = none ∨
     envMissingEndpoint.apiVersion = none) ∧
    (mainStartup envMissingEndpoint =
       .initFailed
         ["Failed to initialize chatbot: missing required Azure OpenAI configuration",
          "Please check your Azure OpenAI credentials and try again."] ∧
     (mainStartup envMissingEndpoint).isStarted = false) :=
  ⟨Or.inl rfl, startup_missing_client_value_fatal envMissingEndpoint (Or.inl rfl)⟩
